import Mathlib

set_option maxRecDepth 100000

/-!
Verification of the Vasuki chatbot query-processing pipeline.

The definitions below are a shallow embedding of the Python sources
(`query_processor.py`, `llm_utils.py`, `database_utils.py`, `main.py`,
`session_manager.py`).  Python strings are modelled as Lean `String`,
Python dictionaries as Lean functions into `Option`, floating-point
numbers as `Rat`, exceptions as `Except`, and the external LLM and
vector-store collaborators as function-valued fields of an environment
record, one field per externally invoked chain or retriever.
-/

/- ## Python string primitives -/

/-- Python `str.lower` (ASCII case folding, which covers every string the
    program manipulates). -/
def pyLower (s : String) : String := String.mk (s.toList.map Char.toLower)

/-- Character class of Python `str.strip()` whitespace. -/
def pyWs (c : Char) : Bool :=
  c = ' ' || c = '\t' || c = '\n' || c = '\r' || c = '\x0b' || c = '\x0c'

/-- Remove a trailing run of characters satisfying `p`. -/
def dropTrailing (p : Char → Bool) : List Char → List Char
  | [] => []
  | a :: t =>
    let t' := dropTrailing p t
    if t' = [] && p a then [] else a :: t'

/-- Python `str.strip()` on a character list: remove the leading and the
    trailing whitespace run. -/
def pyStripL (l : List Char) : List Char := dropTrailing pyWs (l.dropWhile pyWs)

/-- Python `str.strip()`. -/
def pyStrip (s : String) : String := String.mk (pyStripL s.toList)

/-- Bool test: `needle` occurs as a contiguous substring of `hay`
    (Python `needle in hay`). -/
def containsSub (hay needle : List Char) : Bool :=
  if needle.isPrefixOf hay then true
  else
    match hay with
    | [] => false
    | _ :: t => containsSub t needle

/-- Python `needle in hay` on strings. -/
def pyContains (hay needle : String) : Bool := containsSub hay.toList needle.toList

/-- Python `s.endswith(t)`. -/
def pyEndsWith (s t : String) : Bool := t.toList.reverse.isPrefixOf s.toList.reverse

/-- Python `s.split(sep)[0]`: the characters before the first `'_'`
    (the whole string when none occurs), as used on intent labels. -/
def takeBeforeUnderscore (s : String) : String :=
  String.mk (s.toList.takeWhile (fun c => c ≠ '_'))

/-- A space or a tab, the character class of the final-cleanup regex
    `[ \t]{2,}` in `process_query`. -/
def isSpaceTab (c : Char) : Bool := c = ' ' || c = '\t'

/-- A flushed maximal space/tab run: an isolated space or tab is kept as
    is (the regex `[ \t]{2,}` does not match it); a run of two or more is
    replaced by a single space. -/
def flushRun (run : List Char) : List Char :=
  match run with
  | [] => []
  | [c] => [c]
  | _ :: _ :: _ => [' ']

/-- Worker for `re.sub(r'[ \t]{2,}', ' ', s)`: `run` accumulates the
    current maximal space/tab run, flushed when it ends. -/
def collapseGo (run : List Char) : List Char → List Char
  | [] => flushRun run
  | a :: t =>
    if isSpaceTab a then collapseGo (run ++ [a]) t
    else flushRun run ++ a :: collapseGo [] t

/-- `re.sub(r'[ \t]{2,}', ' ', s)`: each maximal run of two or more
    spaces/tabs becomes a single space; an isolated space or tab is kept. -/
def collapseRuns (l : List Char) : List Char := collapseGo [] l

/-- Does the list contain two adjacent characters that are each a space
    or a tab? -/
def hasSpaceTabRun : List Char → Bool
  | a :: b :: t => (isSpaceTab a && isSpaceTab b) || hasSpaceTabRun (b :: t)
  | _ => false

/-- The final response cleanup of `process_query`:
    `re.sub(r'[ \t]{2,}', ' ', draft_response).strip()`. -/
def finalizeResponse (s : String) : String := pyStrip (String.mk (collapseRuns s.toList))

/-- Models `random.choice(l)`: a deterministic selection of one element of
    `l`, indexed by the environment's choice seed. -/
def pickFrom (l : List String) (n : Nat) : String := l.getD (n % l.length) ""

/-- Two-decimal rendering of a (nonnegative) number, modelling the Python
    float format specifier `:.2f` used in `format_product_results`. -/
def fmt2 (q : Rat) : String :=
  let n := (round (q * 100) : ℤ).toNat
  let frac := n % 100
  toString (n / 100) ++ "." ++ (if frac < 10 then "0" else "") ++ toString frac

/- ## llm_utils.py: intent classification -/

/-- The valid intent labels of `classify_intent_with_llm`
    (llm_utils.py, lines 193-196). -/
def validIntents : List String :=
  ["product_query", "return_policy", "shipping_policy",
   "privacy_policy", "general_faq", "greeting", "compliment", "other"]

/-- `response.strip().lower().replace(".", "")` (llm_utils.py, line 191). -/
def cleanedIntentOf (response : String) : String :=
  String.mk (((pyStripL response.toList).map Char.toLower).filter (fun c => c ≠ '.'))

/-- The pure part of `classify_intent_with_llm`: map the raw model response
    to a label (llm_utils.py, lines 191-205). -/
def classifyIntentFromResponse (response : String) : String :=
  let cleaned := cleanedIntentOf response
  if validIntents.contains cleaned then cleaned
  else
    match validIntents.find? (fun i => pyContains cleaned i) with
    | some i => i
    | none => "other"

/-- `classify_intent_with_llm` (llm_utils.py, lines 186-208).  The invoke of
    the intent chain is modelled as an `Except`: an exception from the model
    path is caught and yields "other". -/
def classifyIntentWithLlm : Except String String → String
  | .error _ => "other"
  | .ok response => classifyIntentFromResponse response

/-- Keyword set of the rules classifier for `greeting`. -/
def greetingKeywords : List String := ["hello", "hi", "hey", "good morning", "namaste"]

/-- Keyword set of the rules classifier for `return_policy`. -/
def returnKeywords : List String := ["return", "refund", "exchange"]

/-- Keyword set of the rules classifier for `shipping_policy`. -/
def shippingKeywords : List String := ["shipping", "delivery", "track"]

/-- Keyword set of the rules classifier for `privacy_policy`. -/
def privacyKeywords : List String := ["privacy", "data", "personal information"]

/-- Keyword set of the rules classifier for `compliment`. -/
def complimentKeywords : List String := ["thank you", "great", "awesome", "love it"]

/-- Keyword set of the rules classifier for `product_query`. -/
def productKeywords : List String :=
  ["product", "item", "jewelry", "ring", "necklace", "price",
   "cost", "buy", "find", "show me"]

/-- `classify_intent_rules` (llm_utils.py, lines 210-225). -/
def classifyIntentRules (query : String) : String :=
  let q := pyLower query
  let anyKw := fun (kws : List String) => kws.any (fun kw => pyContains q kw)
  if anyKw greetingKeywords then "greeting"
  else if anyKw returnKeywords then "return_policy"
  else if anyKw shippingKeywords then "shipping_policy"
  else if anyKw privacyKeywords then "privacy_policy"
  else if anyKw complimentKeywords then "compliment"
  else if anyKw productKeywords then "product_query"
  else "general_faq"

/-- The labels `process_query` accepts from the LLM classifier before
    falling back to the rules (query_processor.py, line 121). -/
def acceptedIntents : List String :=
  ["product_query", "return_policy", "shipping_policy",
   "privacy_policy", "general_faq", "greeting"]

/-- The turn's final classified intent (query_processor.py, lines 120-122):
    the LLM label when it is one of the six accepted ones, otherwise the
    rule-based classification of the query. -/
def finalIntentOfTurn (modelResult : Except String String) (queryText : String) : String :=
  let intent := classifyIntentWithLlm modelResult
  if acceptedIntents.contains intent then intent else classifyIntentRules queryText

/- ## database_utils.py: format_product_results -/

/-- A row of the inventory join used by the old product pipeline
    (database_utils.py).  Every column key is present in a fetched row;
    a SQL NULL is `none`.  Numeric columns are modelled as `Rat`. -/
structure ProductRow where
  categoryName : Option String
  subcategoryName : Option String
  skuNumber : Option String
  stoneName : Option String
  colorName : Option String
  finishName : Option String
  weight : Option Rat
  length : Option Rat
  width : Option Rat
  unitPrice : Option Rat
deriving DecidableEq

/-- Python f-string rendering of a value that may be `None`. -/
def pyShowOpt : Option String → String
  | some s => s
  | none => "None"

/-- Python truthiness of an optional string (`None` and `""` are falsy). -/
def truthyStr : Option String → Bool
  | some s => s ≠ ""
  | none => false

/-- Python truthiness of an optional number (`None` and `0` are falsy). -/
def truthyNum : Option Rat → Bool
  | some q => q ≠ 0
  | none => false

/-- One numbered product entry of `format_product_results`
    (database_utils.py, lines 30-55); `i` is the 1-based display index. -/
def formatRow (i : Nat) (p : ProductRow) : String :=
  let productName :=
    pyStrip (pyShowOpt p.categoryName ++ " " ++ pyShowOpt p.subcategoryName)
  let base := "\n" ++ toString i ++ ". " ++ productName ++
    " (SKU: " ++ pyShowOpt p.skuNumber ++ ")\n"
  let details :=
    (if truthyStr p.stoneName then ["   - Stone: " ++ pyShowOpt p.stoneName] else []) ++
    (if truthyStr p.colorName then ["   - Color: " ++ pyShowOpt p.colorName] else []) ++
    (if truthyStr p.finishName then ["   - Finish: " ++ pyShowOpt p.finishName] else []) ++
    (if truthyNum p.weight then
      ["   - Weight: " ++ fmt2 (p.weight.getD 0) ++ " grams"] else [])
  let dims :=
    (if truthyNum p.length then [fmt2 (p.length.getD 0)] else []) ++
    (if truthyNum p.width then [fmt2 (p.width.getD 0)] else [])
  let details := details ++
    (if dims = [] then [] else ["   - Dimensions: " ++ String.intercalate " x " dims])
  let desc := base ++ String.intercalate "\n" details
  match p.unitPrice with
  | some q => desc ++ "\n   - Price: â‚¹" ++ fmt2 q ++ "\n"
  | none => desc ++ "\n   - Price: Not available\n"

/-- The first-batch header of `format_product_results`. -/
def foundHeaderMsg : String := "I found the following product(s) for you:\n"

/-- `format_product_results` (database_utils.py, lines 17-57): formats the
    batch `results[start_index : start_index + batch_size]`, numbering the
    entries from `start_index + 1`, with a header on the first batch. -/
def formatProductResults (results : List ProductRow)
    (startIndex : Nat) (batchSize : Nat) : String :=
  if results = [] then ""
  else
    let header := if startIndex = 0 then [foundHeaderMsg] else []
    let paginated := (results.drop startIndex).take batchSize
    let rows := (List.enumFrom (startIndex + 1) paginated).map
      (fun ip => formatRow ip.1 ip.2)
    String.join (header ++ rows)

/- ## query_processor.py: the turn-processing pipeline -/

/-- A stored product-recommendation session (`product_recommendation_sessions`
    value): the result set of a previous search and the pagination index. -/
structure PRSession where
  results : List ProductRow
  index : Nat
deriving DecidableEq

/-- The in-memory store `product_recommendation_sessions`, keyed by
    conversation id. -/
abbrev Sessions := String → Option PRSession

/-- A conversation turn (`{"role": ..., "content": ...}`). -/
structure HistMsg where
  role : String
  content : String
deriving DecidableEq

/-- The external collaborators of `process_query`, one field per externally
    invoked component.  Chain invokes are `Except`-valued (an exception in
    Python); `pick` is the seed consumed by `random.choice`. -/
structure Env where
  /-- `"llm_chains" in llm_app_components` -/
  hasChains : Bool
  /-- `"embedding_model" in llm_app_components` -/
  hasEmbedding : Bool
  /-- seed for `random.choice` -/
  pick : Nat
  /-- raw response of the intent chain invoke -/
  intentResponse : Except String String
  /-- `retriever.invoke(query)` for a collection name: the retrieved
      documents' page contents, or an exception -/
  retrDocs : String → String → Except String (List String)
  /-- the Shopify QA chain on (context, question): `output_text` of the
      invoke result when present, or an exception -/
  shopifyQA : String → String → Except String (Option String)
  /-- the policy chain on (question, history, context) -/
  policyChain : String → List HistMsg → String → Except String String
  /-- the FAQ chain on (question, history, context) -/
  faqChain : String → List HistMsg → String → Except String String

/-- The collection-key map of `get_context_from_vector_store`
    (query_processor.py, lines 22-27). -/
def collectionNameMap : List (String × String) :=
  [("faqs", "faqs_llama"), ("policies", "policies_llama"),
   ("products", "shopify_products")]

/-- `get_context_from_vector_store` (query_processor.py, lines 16-44):
    join the retrieved documents with blank lines; any retrieval error is
    caught and yields the empty context. -/
def getContextFromVectorStore (env : Env) (queryText collectionKey : String) : String :=
  if env.hasEmbedding = false then ""
  else
    match collectionNameMap.lookup collectionKey with
    | none => ""
    | some collectionName =>
      match env.retrDocs collectionName queryText with
      | .error _ => ""
      | .ok docs => String.intercalate "\n\n" docs

/-- `query_policy_context` (query_processor.py, lines 46-48); the
    `policy_type` argument is accepted and ignored, as in the source. -/
def queryPolicyContext (env : Env) (queryText policyType : String) : String :=
  getContextFromVectorStore env queryText "policies"

/-- `query_faq_context` (query_processor.py, lines 51-53). -/
def queryFaqContext (env : Env) (queryText : String) : String :=
  getContextFromVectorStore env queryText "faqs"

/-- Response of `process_query` when `llm_chains` is missing. -/
def notInitializedMsg : String :=
  "I'm sorry, the system is not fully initialized. Please try again later."

/-- The continuation phrases of the "show more" check
    (query_processor.py, line 74). -/
def continuationWords : List String :=
  ["yes", "more", "show more", "sure", "ok", "give me more"]

/-- `any(word in query_lower for word in [...])` (query_processor.py,
    line 74). -/
def contTrigger (queryLower : String) : Bool :=
  continuationWords.any (fun w => pyContains queryLower w)

/-- Responses for a query containing "how are you"
    (query_processor.py, lines 100-104). -/
def howAreYouResponses : List String :=
  ["I'm doing great, thank you! How can I assist you today?",
   "I'm just a bot, but I'm ready to help! What can I do for you?",
   "Feeling helpful! Thanks for asking. What can I get for you?"]

/-- The `greetings` trigger table (query_processor.py, lines 105-112), in
    Python dict insertion order. -/
def greetingsTable : List (String × List String) :=
  [("good morning",
    ["Good morning! How can I help you today?",
     "Good morning! Hope you have a great day. What can I assist you with?",
     "A very good morning to you! What are you looking for today?"]),
   ("good evening",
    ["Good evening! How may I assist you?",
     "Good evening! I hope you're having a pleasant evening. How can I help?"]),
   ("namaste",
    ["Namaste! How can I help you today?",
     "Namaste! Welcome to Vasuki. What can I do for you?"]),
   ("hello",
    ["Hello! This is Vasuki, your jewelry assistant. How can I help?",
     "Hi there! I'm Vasuki. Ask me anything about our products or policies."]),
   ("hi",
    ["Hi! I'm Vasuki, ready to help with your E-commerce questions.",
     "Hey! Vasuki here. What can I do for you?"]),
   ("hey",
    ["Hey there! How can I assist you?",
     "Hey! I'm Vasuki. Let me know what you need."])]

/-- The first greeting entry whose trigger occurs in the lowered query
    (the `for trigger, responses in greetings.items()` loop). -/
def findGreeting (queryLower : String) : Option (List String) :=
  (greetingsTable.find? (fun p => pyContains queryLower p.1)).map (fun p => p.2)

/-- Fallback greeting responses for the `greeting` intent
    (query_processor.py, lines 128-133). -/
def fallbackGreetingResponses : List String :=
  ["Hello! VASUKI is a premier jewelry company. How can I assist you with our collections or services today?",
   "Greetings! Welcome to VASUKI. How may I help you?",
   "Hi! You've reached VASUKI. Let me know if you have any questions about our jewelry."]

/-- Draft when no product context was found (query_processor.py, line 143). -/
def noProductsMsg : String :=
  "I'm sorry, I couldn't find any products that match your description. You can browse our full collection at https://shopvasuki.com/"

/-- Default for a QA invoke result without `output_text`
    (query_processor.py, line 154). -/
def qaMissingOutputMsg : String := "Sorry, I had trouble generating a response."

/-- Draft produced by the `except` clause of the processing pipeline
    (query_processor.py, line 174). -/
def pipelineErrorMsg : String :=
  "I'm sorry, I encountered an unexpected issue while processing your request. Please try again."

/-- Draft for an intent handled by no branch (query_processor.py, line 170). -/
def unknownIntentMsg : String :=
  "I'm sorry, I'm not sure how to help with that. Can I assist with a product search or a policy question?"

/-- Fixed response for "what is vasuki" (query_processor.py, line 164). -/
def vasukiInfoMsg : String :=
  "VASUKI is a distinguished jewelry company, known for its exquisite craftsmanship and unique designs."

/-- Response when the stored result set is exhausted
    (query_processor.py, line 89). -/
def noMoreProductsMsg : String :=
  "There are no more products to show from your previous search."

/-- Continuation prompt appended when more results remain
    (query_processor.py, line 84). -/
def seeMorePrompt : String := "\nWould you like to see more?"

/-- Closing statement appended when the result set is exhausted
    (query_processor.py, line 86). -/
def closingStatement : String := "\nThose are all the recommendations I have for now."

/-- The "show more" branch of `process_query` (lines 72-91): emit the next
    batch of three from the stored session, advance or delete the cursor,
    and return the stripped response. -/
def showMoreTurn (sess : PRSession) (sessions : Sessions)
    (conversationId : String) : String × Sessions :=
  let results := sess.results
  let startIndex := sess.index
  if startIndex < results.length then
    let formattedProducts := formatProductResults results startIndex 3
    let newIndex := startIndex + 3
    if newIndex < results.length then
      (pyStrip (formattedProducts ++ seeMorePrompt),
       fun c => if c = conversationId then some ⟨results, newIndex⟩ else sessions c)
    else
      (pyStrip (formattedProducts ++ closingStatement),
       fun c => if c = conversationId then none else sessions c)
  else
    (pyStrip noMoreProductsMsg,
     fun c => if c = conversationId then none else sessions c)

/-- The `draft_response` produced by the non-greeting branches of step 5 of
    `process_query` (lines 126-174) for a given final intent; a chain
    exception inside the `try` block is caught and yields
    `pipelineErrorMsg`. -/
def draftResponseFor (env : Env) (queryText : String) (history : List HistMsg)
    (intent : String) : String :=
  if intent = "product_query" then
    let context := getContextFromVectorStore env queryText "products"
    if context = "" then noProductsMsg
    else
      match env.shopifyQA context queryText with
      | .error _ => pipelineErrorMsg
      | .ok output => output.getD qaMissingOutputMsg
  else if pyEndsWith intent "_policy" then
    let policyTypeKey := takeBeforeUnderscore intent
    match env.policyChain queryText history
      (queryPolicyContext env queryText policyTypeKey) with
    | .error _ => pipelineErrorMsg
    | .ok r => r
  else if intent = "general_faq" then
    if pyContains (pyLower queryText) "what is vasuki" then vasukiInfoMsg
    else
      match env.faqChain queryText history (queryFaqContext env queryText) with
      | .error _ => pipelineErrorMsg
      | .ok r => r
  else unknownIntentMsg

/-- Steps 4-5 of `process_query` (lines 119-178): classify the intent and
    produce the response.  The `greeting` intent returns a canned response
    directly; every other intent's draft passes through the final
    whitespace cleanup (line 177). -/
def intentAnswer (env : Env) (queryText : String) (history : List HistMsg) : String :=
  let intent := finalIntentOfTurn env.intentResponse queryText
  if intent = "greeting" then pickFrom fallbackGreetingResponses env.pick
  else finalizeResponse (draftResponseFor env queryText history intent)

/-- Step 3 onwards of `process_query` (lines 97-178): greeting shortcuts,
    then intent classification and dispatch.  The product-session store is
    not touched past line 95, so this part returns only the response. -/
def laterTurnPart (env : Env) (queryText queryLower : String)
    (history : List HistMsg) : String :=
  if pyContains queryLower "how are you" then pickFrom howAreYouResponses env.pick
  else
    match findGreeting queryLower with
    | some responses => pickFrom responses env.pick
    | none => intentAnswer env queryText history

/-- `process_query` (query_processor.py, lines 56-178), as a function of the
    environment and the product-recommendation session store; returns the
    response text and the updated store. -/
def processQuery (env : Env) (sessions : Sessions) (queryText : String)
    (history : List HistMsg) (conversationId : String) : String × Sessions :=
  let queryLower := pyStrip (pyLower queryText)
  if env.hasChains = false then (notInitializedMsg, sessions)
  else
    match sessions conversationId with
    | some sess =>
      if contTrigger queryLower then showMoreTurn sess sessions conversationId
      else
        -- line 94-95: a new, non-continuation query deletes the session
        (laterTurnPart env queryText queryLower history,
         fun c => if c = conversationId then none else sessions c)
    | none => (laterTurnPart env queryText queryLower history, sessions)

/- ## main.py: session history expiry and the request guard -/

/-- `SESSION_TIMEOUT_SECONDS = 20 * 60` (main.py, line 32). -/
def SESSION_TIMEOUT_SECONDS : Int := 20 * 60

/-- The two per-conversation stores of main.py (`conversation_histories`
    and `conversation_last_activity`); time is modelled as an integer. -/
structure SessionStore where
  histories : String → Option (List HistMsg)
  lastActivity : String → Option Int

/-- `get_active_session_history` (main.py, lines 91-102): on expiry the
    history and last-activity entries are pruned and the empty history is
    returned. -/
def getActiveSessionHistory (store : SessionStore) (convId : String)
    (now : Int) : List HistMsg × SessionStore :=
  match store.histories convId with
  | some h =>
    let lastActiveTime := (store.lastActivity convId).getD 0
    if now - lastActiveTime > SESSION_TIMEOUT_SECONDS then
      ([], ⟨fun c => if c = convId then none else store.histories c,
            fun c => if c = convId then none else store.lastActivity c⟩)
    else (h, store)
  | none => ([], store)

/-- The 503 body of `handle_query_api` when startup failed
    (main.py, lines 123-128): the stored initialization error string is
    interpolated into the client-visible response. -/
def unavailableBody (initError : String) : String :=
  "System is currently unavailable: " ++ initError

/-- The 503 body of `handle_query_api` when the chains are missing
    (main.py, lines 129-134). -/
def notReadyBody : String := "System is not ready. LLM components not initialized."

/-- The guard of `handle_query_api` (main.py, lines 120-134): `some (status,
    body)` when the request is answered before reaching `process_query`. -/
def handleQueryGuard (initError : Option String) (hasChains : Bool) :
    Option (Nat × String) :=
  match initError with
  | some e => some (503, unavailableBody e)
  | none => if hasChains = false then some (503, notReadyBody) else none

/- ## session_manager.py: the slot-state store -/

/-- A slot value in the update dictionary produced by the slot filler:
    either a text value or a number. -/
inductive SlotValue where
  | text (v : String)
  | num (v : Rat)
deriving DecidableEq

/-- A Python dictionary with string keys and possibly-`None` slot values:
    `none` means the key is absent, `some none` a key mapped to `None`. -/
abbrev SlotDict := String → Option (Option SlotValue)

/-- `ProductSearchState` (session_manager.py, lines 5-13).  `min_price` and
    `max_price` are declared with the pydantic aliases `price_min` and
    `price_max`; with the default model configuration the constructor
    populates them from the alias keys only. -/
structure ProductSearchState where
  category : Option String
  subcategory : Option String
  stone : Option String
  color : Option String
  finish : Option String
  min_price : Option Rat
  max_price : Option Rat
deriving DecidableEq

/-- The freshly created state of `get_or_create_session`. -/
def emptySearchState : ProductSearchState :=
  ⟨none, none, none, none, none, none, none⟩

/-- `session.model_dump()`: field names (not aliases) are the keys. -/
def modelDump (st : ProductSearchState) : SlotDict := fun k =>
  if k = "category" then some (st.category.map SlotValue.text)
  else if k = "subcategory" then some (st.subcategory.map SlotValue.text)
  else if k = "stone" then some (st.stone.map SlotValue.text)
  else if k = "color" then some (st.color.map SlotValue.text)
  else if k = "finish" then some (st.finish.map SlotValue.text)
  else if k = "min_price" then some (st.min_price.map SlotValue.num)
  else if k = "max_price" then some (st.max_price.map SlotValue.num)
  else none

/-- `dict.update`: keys of `u` override `d`. -/
def dictUpdate (d u : SlotDict) : SlotDict := fun k => (u k).orElse (fun _ => d k)

/-- Read an optional text field from a constructor argument dict: an absent
    key gives the default `None`; a present value must be a string or `None`
    (anything else raises a pydantic `ValidationError`). -/
def readTextField : Option (Option SlotValue) → Option (Option String)
  | none => some none
  | some none => some none
  | some (some (.text v)) => some (some v)
  | some (some (.num _)) => none

/-- Read an optional numeric field from a constructor argument dict. -/
def readNumField : Option (Option SlotValue) → Option (Option Rat)
  | none => some none
  | some none => some none
  | some (some (.num v)) => some (some v)
  | some (some (.text _)) => none

/-- `ProductSearchState(**d)`: each field is populated from its population
    key — the field name, except `min_price`/`max_price`, which are
    populated from their aliases `price_min`/`price_max`; unrecognized keys
    (including the literal keys "min_price"/"max_price") are ignored, and a
    type-invalid value raises (`none`). -/
def constructState (d : SlotDict) : Option ProductSearchState := do
  let category ← readTextField (d "category")
  let subcategory ← readTextField (d "subcategory")
  let stone ← readTextField (d "stone")
  let color ← readTextField (d "color")
  let finish ← readTextField (d "finish")
  let minPrice ← readNumField (d "price_min")
  let maxPrice ← readNumField (d "price_max")
  pure ⟨category, subcategory, stone, color, finish, minPrice, maxPrice⟩

/-- `update_session` (session_manager.py, lines 24-30) on the state of one
    session id: dump the current state, apply the update dict, rebuild. -/
def updateSession (st : ProductSearchState) (updates : SlotDict) :
    Option ProductSearchState :=
  constructState (dictUpdate (modelDump st) updates)

/- ## Definitions modelled from the spec (for claim statements) -/

/-- Modelled from the spec: a token matching the identifier pattern — a
    contiguous run of at least 5 uppercase letters/digits.  No such scan
    exists in the source; this definition only states claim hypotheses. -/
def isIdentifierToken (t : String) : Bool :=
  5 ≤ t.length && t.toList.all (fun c => c.isUpper || c.isDigit)

/-- Modelled from the spec: the normalization C2 describes — trim,
    lowercase, strip trailing punctuation.  (The code instead removes every
    period and no other punctuation.) -/
def specNormalize (s : String) : String :=
  String.mk (dropTrailing (fun c => c ∈ ['.', ',', '!', '?', ';', ':'])
    ((pyStripL s.toList).map Char.toLower))

/- ## General lemmas -/

theorem accepted_sub_valid (s : String) (h : acceptedIntents.contains s = true) :
    validIntents.contains s = true := by
  have hm : s ∈ acceptedIntents := List.elem_iff.mp h
  simp only [acceptedIntents, List.mem_cons, List.not_mem_nil, or_false] at hm
  rcases hm with h1 | h1 | h1 | h1 | h1 | h1 <;> subst h1 <;> decide

theorem rules_label_valid (q : String) :
    validIntents.contains (classifyIntentRules q) = true := by
  simp only [classifyIntentRules]
  repeat' split
  all_goals decide

theorem containsSub_append_self (l r : List Char) : containsSub (l ++ r) r = true := by
  induction l with
  | nil =>
    unfold containsSub
    rw [if_pos]
    simp [List.isPrefixOf_iff_prefix]
  | cons a t ih =>
    unfold containsSub
    split
    · rfl
    · simpa using ih

theorem intentAnswer_eq (env : Env) (q : String) (hist : List HistMsg) :
    intentAnswer env q hist =
      if finalIntentOfTurn env.intentResponse q = "greeting"
      then pickFrom fallbackGreetingResponses env.pick
      else finalizeResponse
        (draftResponseFor env q hist (finalIntentOfTurn env.intentResponse q)) := rfl

theorem draftResponseFor_product (env : Env) (q : String) (hist : List HistMsg) :
    draftResponseFor env q hist "product_query" =
      if getContextFromVectorStore env q "products" = "" then noProductsMsg
      else
        match env.shopifyQA (getContextFromVectorStore env q "products") q with
        | Except.error _ => pipelineErrorMsg
        | Except.ok output => output.getD qaMissingOutputMsg := rfl

/- ## C3 -/

/-- C3: intent classification is total.  An error from the model path is
    caught and the turn is classified by the rule-based fallback; the
    rule-based classifier always returns one of the eight valid labels,
    defaulting to `general_faq` when no keyword set matches; and the final
    classified intent of every turn is one of the eight valid labels, so no
    turn fails solely due to classification. -/
theorem c3_intent_classification_total :
    (∀ e q, finalIntentOfTurn (Except.error e) q = classifyIntentRules q) ∧
    (∀ q, validIntents.contains (classifyIntentRules q) = true) ∧
    (∀ q, (∀ kw ∈ greetingKeywords ++ returnKeywords ++ shippingKeywords ++
        privacyKeywords ++ complimentKeywords ++ productKeywords,
        pyContains (pyLower q) kw = false) →
      classifyIntentRules q = "general_faq") ∧
    (∀ r q, validIntents.contains (finalIntentOfTurn r q) = true) := by
  refine ⟨fun e q => rfl, rules_label_valid, ?_, fun r q => ?_⟩
  · intro q hkw
    simp only [classifyIntentRules]
    have hG : greetingKeywords.any (fun kw => pyContains (pyLower q) kw) = false := by
      rw [List.any_eq_false]
      intro kw hm
      simp [hkw kw (by simp [hm])]
    have hR : returnKeywords.any (fun kw => pyContains (pyLower q) kw) = false := by
      rw [List.any_eq_false]
      intro kw hm
      simp [hkw kw (by simp [hm])]
    have hS : shippingKeywords.any (fun kw => pyContains (pyLower q) kw) = false := by
      rw [List.any_eq_false]
      intro kw hm
      simp [hkw kw (by simp [hm])]
    have hP : privacyKeywords.any (fun kw => pyContains (pyLower q) kw) = false := by
      rw [List.any_eq_false]
      intro kw hm
      simp [hkw kw (by simp [hm])]
    have hC : complimentKeywords.any (fun kw => pyContains (pyLower q) kw) = false := by
      rw [List.any_eq_false]
      intro kw hm
      simp [hkw kw (by simp [hm])]
    have hQ : productKeywords.any (fun kw => pyContains (pyLower q) kw) = false := by
      rw [List.any_eq_false]
      intro kw hm
      simp [hkw kw (by simp [hm])]
    rw [if_neg (by rw [hG]; exact Bool.false_ne_true),
        if_neg (by rw [hR]; exact Bool.false_ne_true),
        if_neg (by rw [hS]; exact Bool.false_ne_true),
        if_neg (by rw [hP]; exact Bool.false_ne_true),
        if_neg (by rw [hC]; exact Bool.false_ne_true),
        if_neg (by rw [hQ]; exact Bool.false_ne_true)]
  · unfold finalIntentOfTurn
    by_cases h : acceptedIntents.contains (classifyIntentWithLlm r) = true
    · rw [if_pos h]
      exact accepted_sub_valid _ h
    · rw [if_neg h]
      exact rules_label_valid q

/-- Witness for C3: the query "vvv" matches no keyword set and defaults to
    general_faq, also when the model path errors out. -/
theorem c3_intent_classification_total_witness :
    finalIntentOfTurn (Except.error "timeout") "vvv" = classifyIntentRules "vvv" ∧
    classifyIntentRules "vvv" = "general_faq" ∧
    validIntents.contains (finalIntentOfTurn (Except.ok "??") "vvv") = true :=
  ⟨c3_intent_classification_total.1 "timeout" "vvv",
   c3_intent_classification_total.2.2.1 "vvv" (by decide),
   c3_intent_classification_total.2.2.2 (Except.ok "??") "vvv"⟩

/- ## C6 -/

/-- C6: a conversation whose last activity is more than the 20-minute
    timeout before the current access starts its next turn with empty
    history, regardless of the stored history, and the access that observes
    the expiry prunes both the history and the last-activity entries. -/
theorem c6_session_expiry (store : SessionStore) (convId : String) (now : Int)
    (h : List HistMsg) (hh : store.histories convId = some h)
    (hexp : now - (store.lastActivity convId).getD 0 > SESSION_TIMEOUT_SECONDS) :
    (getActiveSessionHistory store convId now).1 = [] ∧
    (getActiveSessionHistory store convId now).2.histories convId = none ∧
    (getActiveSessionHistory store convId now).2.lastActivity convId = none := by
  unfold getActiveSessionHistory
  rw [hh]
  simp [hexp]

/-- Witness for C6 at a concrete store with 20-entry history, last active at
    time 0, accessed at time 1201. -/
theorem c6_session_expiry_witness :
    (getActiveSessionHistory
        ⟨fun c => if c = "conv1" then some (List.replicate 20 ⟨"user", "hi"⟩) else none,
         fun c => if c = "conv1" then some 0 else none⟩ "conv1" 1201).1 = [] ∧
    (getActiveSessionHistory
        ⟨fun c => if c = "conv1" then some (List.replicate 20 ⟨"user", "hi"⟩) else none,
         fun c => if c = "conv1" then some 0 else none⟩ "conv1" 1201).2.histories "conv1" = none ∧
    (getActiveSessionHistory
        ⟨fun c => if c = "conv1" then some (List.replicate 20 ⟨"user", "hi"⟩) else none,
         fun c => if c = "conv1" then some 0 else none⟩ "conv1" 1201).2.lastActivity "conv1" = none :=
  c6_session_expiry _ "conv1" 1201 (List.replicate 20 ⟨"user", "hi"⟩)
    (by simp) (by norm_num [SESSION_TIMEOUT_SECONDS])

/- ## C8 -/

/-- C8 as stated is false: the 503 response produced while initialization
    has failed embeds the raw initialization error string (here the provider
    key error raised by `get_groq_chat_model`) verbatim in the
    client-visible body. -/
theorem c8_counterexample :
    handleQueryGuard (some "GROQ_API_KEY not found in environment variables.") true =
      some (503, "System is currently unavailable: GROQ_API_KEY not found in environment variables.") ∧
    pyContains "System is currently unavailable: GROQ_API_KEY not found in environment variables."
      "GROQ_API_KEY not found in environment variables." = true := by
  exact ⟨rfl, by decide⟩

/-- C8 amended: while initialization has failed every request is answered
    with a 503 response, but its body embeds the raw initialization error
    string verbatim; errors recovered inside the query-processing pipeline
    (for example a product-QA chain exception) are surfaced only as the
    fixed generic apology, independent of the exception's content. -/
theorem c8_amended :
    (∀ e b, handleQueryGuard (some e) b = some (503, unavailableBody e)) ∧
    (handleQueryGuard none false = some (503, notReadyBody)) ∧
    (∀ e, pyContains (unavailableBody e) e = true) ∧
    (∀ (env : Env) (q : String) (hist : List HistMsg) (ctx e : String),
      finalIntentOfTurn env.intentResponse q = "product_query" →
      getContextFromVectorStore env q "products" = ctx → ctx ≠ "" →
      env.shopifyQA ctx q = Except.error e →
      intentAnswer env q hist = pipelineErrorMsg) := by
  refine ⟨fun e b => rfl, rfl, fun e => ?_, ?_⟩
  · unfold unavailableBody pyContains
    rw [show ("System is currently unavailable: " ++ e).toList =
      "System is currently unavailable: ".toList ++ e.toList from rfl]
    exact containsSub_append_self _ _
  · intro env q hist ctx e hintent hctx hne hqa
    rw [intentAnswer_eq, hintent,
      if_neg (show ¬("product_query" : String) = "greeting" by decide),
      draftResponseFor_product, hctx, if_neg hne, hqa]
    show finalizeResponse pipelineErrorMsg = pipelineErrorMsg
    decide

/-- Witness for C8's amended theorem at a concrete environment whose
    product-QA chain raises a timeout. -/
theorem c8_amended_witness :
    handleQueryGuard (some "boom") true = some (503, unavailableBody "boom") ∧
    pyContains (unavailableBody "boom") "boom" = true ∧
    intentAnswer
      ⟨true, true, 0, Except.ok "product_query", fun _ _ => Except.ok ["doc"],
       fun _ _ => Except.error "Read timed out", fun _ _ _ => Except.ok "",
       fun _ _ _ => Except.ok ""⟩ "show me rings" [] = pipelineErrorMsg :=
  ⟨c8_amended.1 "boom" true, c8_amended.2.2.1 "boom",
   c8_amended.2.2.2
     ⟨true, true, 0, Except.ok "product_query", fun _ _ => Except.ok ["doc"],
      fun _ _ => Except.error "Read timed out", fun _ _ _ => Except.ok "",
      fun _ _ _ => Except.ok ""⟩ "show me rings" [] "doc" "Read timed out"
     (by decide) rfl (by decide) rfl⟩

/- ## C5 -/

/-- C5: the product-recommendation store holds at most one cursor per
    conversation id (it is a map from ids to at most one session), any new,
    non-continuation query leaves the conversation with no cursor after the
    turn — the deletion at lines 93-95 runs before normal processing and
    nothing later in the turn recreates a cursor — and a turn never touches
    another conversation's cursor. -/
theorem c5_cursor_invariant :
    (∀ (env : Env) (sessions : Sessions) (q : String) (hist : List HistMsg)
       (conv : String), env.hasChains = true →
      ¬((sessions conv).isSome = true ∧ contTrigger (pyStrip (pyLower q)) = true) →
      (processQuery env sessions q hist conv).2 conv = none) ∧
    (∀ (env : Env) (sessions : Sessions) (q : String) (hist : List HistMsg)
       (conv c : String), c ≠ conv →
      (processQuery env sessions q hist conv).2 c = sessions c) := by
  constructor
  · intro env sessions q hist conv hch hnc
    unfold processQuery
    rw [hch]
    simp only [Bool.true_eq_false, if_false]
    match hs : sessions conv with
    | some sess =>
      dsimp only
      rw [if_neg (fun ht => hnc ⟨by rw [hs]; rfl, ht⟩)]
      simp
    | none => simpa using hs
  · intro env sessions q hist conv c hc
    unfold processQuery
    by_cases hch : env.hasChains = false
    · rw [if_pos hch]
    · rw [if_neg hch]
      match hs : sessions conv with
      | some sess =>
        dsimp only
        by_cases ht : contTrigger (pyStrip (pyLower q)) = true
        · rw [if_pos ht]
          unfold showMoreTurn
          by_cases h1 : sess.index < sess.results.length
          · rw [if_pos h1]
            by_cases h2 : sess.index + 3 < sess.results.length
            · rw [if_pos h2]
              simp [hc]
            · rw [if_neg h2]
              simp [hc]
          · rw [if_neg h1]
            simp [hc]
        · rw [if_neg ht]
          simp [hc]
      | none => rfl

/-- Witness for C5's first part: a fresh query with no stored cursor ends
    the turn with no cursor; and for the second part at distinct ids. -/
theorem c5_cursor_invariant_witness :
    ((⟨true, false, 0, Except.error "down", fun _ _ => Except.error "down",
       fun _ _ => Except.error "down", fun _ _ _ => Except.error "down",
       fun _ _ _ => Except.error "down"⟩ : Env).hasChains = true ∧
     ¬((((fun _ => none) : Sessions) "c1").isSome = true ∧
       contTrigger (pyStrip (pyLower "hello there")) = true)) ∧
    (processQuery
      ⟨true, false, 0, Except.error "down", fun _ _ => Except.error "down",
       fun _ _ => Except.error "down", fun _ _ _ => Except.error "down",
       fun _ _ _ => Except.error "down"⟩ (fun _ => none) "hello there" [] "c1").2 "c1" = none :=
  ⟨⟨rfl, by decide⟩,
   c5_cursor_invariant.1 _ (fun _ => none) "hello there" [] "c1" rfl (by decide)⟩

/- ## Continuation-turn helper lemmas -/

theorem contTurn_eq (env : Env) (sessions : Sessions) (q : String)
    (hist : List HistMsg) (conv : String) (sess : PRSession)
    (hch : env.hasChains = true) (hs : sessions conv = some sess)
    (ht : contTrigger (pyStrip (pyLower q)) = true) :
    processQuery env sessions q hist conv = showMoreTurn sess sessions conv := by
  unfold processQuery
  rw [hch]
  simp only [Bool.true_eq_false, if_false, hs]
  rw [if_pos ht]

theorem nonContTurn_eq (env : Env) (sessions : Sessions) (q : String)
    (hist : List HistMsg) (conv : String) (sess : PRSession)
    (hch : env.hasChains = true) (hs : sessions conv = some sess)
    (ht : contTrigger (pyStrip (pyLower q)) = false) :
    processQuery env sessions q hist conv =
      (laterTurnPart env q (pyStrip (pyLower q)) hist,
       fun c => if c = conv then none else sessions c) := by
  have hnt : ¬contTrigger (pyStrip (pyLower q)) = true := by
    rw [ht]
    exact Bool.false_ne_true
  unfold processQuery
  rw [hch]
  simp only [Bool.true_eq_false, if_false, hs]
  rw [if_neg hnt]

theorem showMoreTurn_advance (rs : List ProductRow) (i : Nat)
    (sessions : Sessions) (conv : String)
    (hlt : i < rs.length) (hmore : i + 3 < rs.length) :
    showMoreTurn ⟨rs, i⟩ sessions conv =
      (pyStrip (formatProductResults rs i 3 ++ seeMorePrompt),
       fun c => if c = conv then some ⟨rs, i + 3⟩ else sessions c) := by
  unfold showMoreTurn
  rw [if_pos hlt, if_pos hmore]

theorem showMoreTurn_closing (rs : List ProductRow) (i : Nat)
    (sessions : Sessions) (conv : String)
    (hlt : i < rs.length) (hend : ¬i + 3 < rs.length) :
    showMoreTurn ⟨rs, i⟩ sessions conv =
      (pyStrip (formatProductResults rs i 3 ++ closingStatement),
       fun c => if c = conv then none else sessions c) := by
  unfold showMoreTurn
  rw [if_pos hlt, if_neg hend]

/- ## C10 -/

/-- C10: while a pagination session exists, a turn is a continuation
    exactly when the lowered query contains one of the six continuation
    phrases as a substring: then the turn is answered by the show-more
    branch alone, which reads no classifier, retriever or chain (the
    environment does not occur in `showMoreTurn`); otherwise the turn runs
    the normal pipeline with the cursor deleted.  The substring check fires
    on unrelated containing words such as "okay" ("ok") and "eyes" ("yes"). -/
theorem c10_continuation_trigger :
    (∀ (env : Env) (sessions : Sessions) (q : String) (hist : List HistMsg)
       (conv : String) (sess : PRSession), env.hasChains = true →
      sessions conv = some sess →
      (contTrigger (pyStrip (pyLower q)) = true →
        processQuery env sessions q hist conv = showMoreTurn sess sessions conv) ∧
      (contTrigger (pyStrip (pyLower q)) = false →
        processQuery env sessions q hist conv =
          (laterTurnPart env q (pyStrip (pyLower q)) hist,
           fun c => if c = conv then none else sessions c))) ∧
    contTrigger "okay" = true ∧
    contTrigger "do you like my eyes" = true ∧
    contTrigger "what is your return policy" = false := by
  refine ⟨?_, by decide, by decide, by decide⟩
  intro env sessions q hist conv sess hch hs
  exact ⟨contTurn_eq env sessions q hist conv sess hch hs,
         nonContTurn_eq env sessions q hist conv sess hch hs⟩

/-- Witness for C10: with a stored cursor, the query "more" is handled by
    the show-more branch. -/
theorem c10_continuation_trigger_witness :
    processQuery
      ⟨true, false, 7, Except.error "down", fun _ _ => Except.error "down",
       fun _ _ => Except.error "down", fun _ _ _ => Except.error "down",
       fun _ _ _ => Except.error "down"⟩
      (fun c => if c = "c1" then some ⟨[], 0⟩ else none) "more" [] "c1" =
    showMoreTurn ⟨[], 0⟩ (fun c => if c = "c1" then some ⟨[], 0⟩ else none) "c1" :=
  (c10_continuation_trigger.1 _ _ "more" [] "c1" ⟨[], 0⟩ rfl (by decide)).1 (by decide)

/- ## C4 -/

/-- C4: for a stored result set of 7 records with the cursor at 0, three
    continuation turns emit: records 1-3 (the first batch, with the header)
    followed by the continuation prompt, advancing the cursor to 3; records
    4-6 with the continuation prompt, advancing the cursor to 6; and record
    7 with the closing statement, after which the conversation's cursor is
    absent.  The batch slices have sizes 3, 3 and 1. -/
theorem c4_pagination_seven_records (env : Env) (rs : List ProductRow)
    (sessions : Sessions) (conv : String) (q1 q2 q3 : String)
    (hist : List HistMsg) (hlen : rs.length = 7) (hch : env.hasChains = true)
    (hs : sessions conv = some ⟨rs, 0⟩)
    (h1 : contTrigger (pyStrip (pyLower q1)) = true)
    (h2 : contTrigger (pyStrip (pyLower q2)) = true)
    (h3 : contTrigger (pyStrip (pyLower q3)) = true) :
    (processQuery env sessions q1 hist conv).1 =
      pyStrip (formatProductResults rs 0 3 ++ seeMorePrompt) ∧
    (processQuery env sessions q1 hist conv).2 conv = some ⟨rs, 3⟩ ∧
    (processQuery env (processQuery env sessions q1 hist conv).2 q2 hist conv).1 =
      pyStrip (formatProductResults rs 3 3 ++ seeMorePrompt) ∧
    (processQuery env (processQuery env sessions q1 hist conv).2 q2 hist conv).2 conv =
      some ⟨rs, 6⟩ ∧
    (processQuery env
      (processQuery env (processQuery env sessions q1 hist conv).2 q2 hist conv).2
      q3 hist conv).1 =
      pyStrip (formatProductResults rs 6 3 ++ closingStatement) ∧
    (processQuery env
      (processQuery env (processQuery env sessions q1 hist conv).2 q2 hist conv).2
      q3 hist conv).2 conv = none ∧
    (rs.take 3).length = 3 ∧ ((rs.drop 3).take 3).length = 3 ∧
    (rs.drop 6).length = 1 := by
  have e1 : processQuery env sessions q1 hist conv =
      (pyStrip (formatProductResults rs 0 3 ++ seeMorePrompt),
       fun c => if c = conv then some ⟨rs, 3⟩ else sessions c) := by
    rw [contTurn_eq env sessions q1 hist conv ⟨rs, 0⟩ hch hs h1]
    exact showMoreTurn_advance rs 0 sessions conv (by omega) (by omega)
  have hs2 : (processQuery env sessions q1 hist conv).2 conv = some ⟨rs, 3⟩ := by
    rw [e1]
    simp
  have e2 : processQuery env (processQuery env sessions q1 hist conv).2 q2 hist conv =
      (pyStrip (formatProductResults rs 3 3 ++ seeMorePrompt),
       fun c => if c = conv then some ⟨rs, 6⟩
                else (processQuery env sessions q1 hist conv).2 c) := by
    rw [contTurn_eq env _ q2 hist conv ⟨rs, 3⟩ hch hs2 h2]
    exact showMoreTurn_advance rs 3 _ conv (by omega) (by omega)
  have hs3 : (processQuery env (processQuery env sessions q1 hist conv).2 q2 hist conv).2
      conv = some ⟨rs, 6⟩ := by
    rw [e2]
    simp
  have e3 : processQuery env
      (processQuery env (processQuery env sessions q1 hist conv).2 q2 hist conv).2
      q3 hist conv =
      (pyStrip (formatProductResults rs 6 3 ++ closingStatement),
       fun c => if c = conv then none
                else (processQuery env (processQuery env sessions q1 hist conv).2
                        q2 hist conv).2 c) := by
    rw [contTurn_eq env _ q3 hist conv ⟨rs, 6⟩ hch hs3 h3]
    exact showMoreTurn_closing rs 6 _ conv (by omega) (by omega)
  refine ⟨by rw [e1], hs2, by rw [e2], hs3, by rw [e3], by rw [e3]; simp, ?_, ?_, ?_⟩
  · rw [List.length_take, hlen]
    omega
  · rw [List.length_take, List.length_drop, hlen]
    omega
  · rw [List.length_drop, hlen]

/- ## Concrete demonstration data -/

/-- A concrete in-stock inventory row used by witnesses. -/
def demoRow (sku : String) : ProductRow :=
  ⟨some "Gold", some "Ring", some sku, some "Ruby", none, none,
   none, none, none, some 100⟩

/-- A concrete result set of seven records. -/
def demoSeven : List ProductRow :=
  [demoRow "AAAAA1", demoRow "AAAAA2", demoRow "AAAAA3", demoRow "AAAAA4",
   demoRow "AAAAA5", demoRow "AAAAA6", demoRow "AAAAA7"]

/-- A concrete environment whose external collaborators are all offline;
    initialization succeeded (`hasChains`). -/
def demoEnv : Env :=
  ⟨true, false, 0, Except.error "offline", fun _ _ => Except.error "offline",
   fun _ _ => Except.error "offline", fun _ _ _ => Except.error "offline",
   fun _ _ _ => Except.error "offline"⟩

/-- A session store holding the seven-record cursor for conversation "c1". -/
def demoSessions : Sessions :=
  fun c => if c = "c1" then some ⟨demoSeven, 0⟩ else none

/-- Witness for C4 at the concrete seven-record store, stepping through the
    three continuation turns triggered by "more". -/
theorem c4_pagination_seven_records_witness :
    demoSeven.length = 7 ∧
    contTrigger (pyStrip (pyLower "more")) = true ∧
    (processQuery demoEnv demoSessions "more" [] "c1").2 "c1" =
      some ⟨demoSeven, 3⟩ ∧
    (processQuery demoEnv (processQuery demoEnv demoSessions "more" [] "c1").2
      "more" [] "c1").2 "c1" = some ⟨demoSeven, 6⟩ ∧
    (processQuery demoEnv
      (processQuery demoEnv (processQuery demoEnv demoSessions "more" [] "c1").2
        "more" [] "c1").2 "more" [] "c1").2 "c1" = none :=
  have h := c4_pagination_seven_records demoEnv demoSeven demoSessions "c1"
    "more" "more" "more" [] (by decide) rfl (by decide)
    (by decide) (by decide) (by decide)
  ⟨by decide, by decide, h.2.1, h.2.2.2.1, h.2.2.2.2.2.1⟩

/- ## Whitespace-run lemmas -/

theorem hasRun_cons_false {a : Char} {l : List Char} (ha : isSpaceTab a = false)
    (hl : hasSpaceTabRun l = false) : hasSpaceTabRun (a :: l) = false := by
  cases l with
  | nil => rfl
  | cons b t =>
    unfold hasSpaceTabRun
    rw [ha]
    simpa using hl

theorem hasRun_tail_false {a : Char} {l : List Char}
    (h : hasSpaceTabRun (a :: l) = false) : hasSpaceTabRun l = false := by
  cases l with
  | nil => rfl
  | cons b t =>
    unfold hasSpaceTabRun at h
    exact (Bool.or_eq_false_iff.mp h).2

theorem hasRun_cons_cons_false (c : Char) {a : Char} {l : List Char}
    (ha : isSpaceTab a = false) (hl : hasSpaceTabRun l = false) :
    hasSpaceTabRun (c :: a :: l) = false := by
  unfold hasSpaceTabRun
  rw [ha, Bool.and_false, Bool.false_or]
  exact hasRun_cons_false ha hl

theorem flushRun_no_run (run : List Char) : hasSpaceTabRun (flushRun run) = false := by
  unfold flushRun
  match run with
  | [] => rfl
  | [c] => rfl
  | _ :: _ :: _ => rfl

theorem collapseGo_no_run (l : List Char) :
    ∀ run : List Char, hasSpaceTabRun (collapseGo run l) = false := by
  induction l with
  | nil => exact fun run => flushRun_no_run run
  | cons a t ih =>
    intro run
    unfold collapseGo
    by_cases hsp : isSpaceTab a = true
    · rw [if_pos hsp]
      exact ih (run ++ [a])
    · rw [if_neg hsp]
      have ha : isSpaceTab a = false := by
        revert hsp
        cases isSpaceTab a <;> simp
      have hX : hasSpaceTabRun (collapseGo [] t) = false := ih []
      match run with
      | [] => exact hasRun_cons_false ha hX
      | [c] => exact hasRun_cons_cons_false c ha hX
      | _ :: _ :: _ => exact hasRun_cons_cons_false ' ' ha hX

theorem collapseRuns_no_run (l : List Char) :
    hasSpaceTabRun (collapseRuns l) = false := collapseGo_no_run l []

theorem dropWhile_no_run (p : Char → Bool) (l : List Char)
    (h : hasSpaceTabRun l = false) : hasSpaceTabRun (l.dropWhile p) = false := by
  induction l with
  | nil => exact h
  | cons a t ih =>
    rw [List.dropWhile_cons]
    by_cases hp : p a = true
    · rw [if_pos hp]
      exact ih (hasRun_tail_false h)
    · rw [if_neg hp]
      exact h

theorem dropTrailing_no_run (p : Char → Bool) (l : List Char)
    (h : hasSpaceTabRun l = false) :
    hasSpaceTabRun (dropTrailing p l) = false := by
  induction l with
  | nil => exact h
  | cons a t ih =>
    have ih' := ih (hasRun_tail_false h)
    unfold dropTrailing
    cases ht' : dropTrailing p t with
    | nil =>
      cases hpa : p a
      · simp only [ht', hpa]
        rfl
      · simp only [ht', hpa]
        rfl
    | cons b rest =>
      rw [ht'] at ih'
      obtain ⟨t2, hbt, hrest⟩ :
          ∃ t2, t = b :: t2 ∧ rest = dropTrailing p t2 := by
        cases t with
        | nil => simp [dropTrailing] at ht'
        | cons x t2 =>
          unfold dropTrailing at ht'
          by_cases hxc : (decide (dropTrailing p t2 = ([] : List Char)) && p x) = true
          · rw [if_pos hxc] at ht'
            exact absurd ht' (by simp)
          · rw [if_neg hxc] at ht'
            obtain ⟨hx, hr⟩ := List.cons.inj ht'
            exact ⟨t2, by rw [hx], hr.symm⟩
      subst hbt
      have hpair : (isSpaceTab a && isSpaceTab b) = false := by
        unfold hasSpaceTabRun at h
        exact (Bool.or_eq_false_iff.mp h).1
      have hcond : ¬(decide (b :: rest = ([] : List Char)) && p a) = true := by simp
      simp only [ht']
      rw [if_neg hcond]
      unfold hasSpaceTabRun
      rw [hpair, Bool.false_or]
      exact ih'

theorem pyStripL_no_run (l : List Char) (h : hasSpaceTabRun l = false) :
    hasSpaceTabRun (pyStripL l) = false :=
  dropTrailing_no_run _ _ (dropWhile_no_run _ _ h)

theorem finalizeResponse_no_run (s : String) :
    hasSpaceTabRun (finalizeResponse s).toList = false :=
  pyStripL_no_run _ (collapseRuns_no_run s.toList)

theorem pickFrom_no_run (l : List String) (n : Nat)
    (h : ∀ s ∈ l, hasSpaceTabRun s.toList = false) :
    hasSpaceTabRun (pickFrom l n).toList = false := by
  unfold pickFrom
  cases hx : l[n % l.length]? with
  | none =>
    simp only [List.getD, List.get?_eq_getElem?, hx, Option.getD_none]
    rfl
  | some s =>
    simp only [List.getD, List.get?_eq_getElem?, hx, Option.getD_some]
    exact h s (List.getElem?_mem hx)

theorem greetingsTable_no_run :
    ∀ p ∈ greetingsTable, ∀ s ∈ p.2, hasSpaceTabRun s.toList = false := by decide

theorem intentAnswer_no_run (env : Env) (q : String) (hist : List HistMsg) :
    hasSpaceTabRun (intentAnswer env q hist).toList = false := by
  rw [intentAnswer_eq]
  by_cases hg : finalIntentOfTurn env.intentResponse q = "greeting"
  · rw [if_pos hg]
    exact pickFrom_no_run _ _ (by decide)
  · rw [if_neg hg]
    exact finalizeResponse_no_run _

theorem laterTurnPart_no_run (env : Env) (q ql : String) (hist : List HistMsg) :
    hasSpaceTabRun (laterTurnPart env q ql hist).toList = false := by
  unfold laterTurnPart
  by_cases h1 : pyContains ql "how are you" = true
  · rw [if_pos h1]
    exact pickFrom_no_run _ _ (by decide)
  · rw [if_neg h1]
    cases hg : findGreeting ql with
    | some responses =>
      have hex : ∃ p ∈ greetingsTable, p.2 = responses := by
        unfold findGreeting at hg
        cases hf : greetingsTable.find? (fun p => pyContains ql p.1) with
        | none =>
          rw [hf] at hg
          exact absurd hg (by simp)
        | some p =>
          rw [hf] at hg
          exact ⟨p, List.mem_of_find?_eq_some hf, by simpa using hg⟩
      obtain ⟨p, hp, he⟩ := hex
      subst he
      exact pickFrom_no_run _ _ (greetingsTable_no_run p hp)
    | none => exact intentAnswer_no_run env q hist

/- ## C9 -/

/-- A stored one-record result set whose record carries a stone attribute. -/
def demoStoneRow : ProductRow :=
  ⟨some "Gold", some "Ring", some "AAAAA1", some "Ruby", none, none,
   none, none, none, none⟩

/-- A session store holding the one-record cursor for conversation "c9". -/
def demoStoneSessions : Sessions :=
  fun c => if c = "c9" then some ⟨[demoStoneRow], 0⟩ else none

/-- C9 fails as stated: a pagination-continuation turn returns its text
    without the final whitespace cleanup, and `format_product_results`
    indents attribute lines with three spaces, so the turn's response
    contains a run of consecutive spaces within a line. -/
theorem c9_counterexample :
    hasSpaceTabRun ((processQuery demoEnv demoStoneSessions "more" [] "c9").1).toList
      = true := by decide

/-- C9 amended: the final cleanup makes any draft free of space/tab runs,
    and every turn's response is free of space/tab runs except possibly a
    pagination-continuation turn (the early return at lines 72-91, whose
    formatted product text bypasses the cleanup). -/
theorem c9_amended :
    (∀ s, hasSpaceTabRun (finalizeResponse s).toList = false) ∧
    (∀ (env : Env) (sessions : Sessions) (q : String) (hist : List HistMsg)
       (conv : String),
      hasSpaceTabRun ((processQuery env sessions q hist conv).1).toList = false ∨
      ((sessions conv).isSome = true ∧ contTrigger (pyStrip (pyLower q)) = true)) := by
  refine ⟨finalizeResponse_no_run, ?_⟩
  intro env sessions q hist conv
  unfold processQuery
  by_cases hch : env.hasChains = false
  · rw [if_pos hch]
    left
    show hasSpaceTabRun notInitializedMsg.toList = false
    decide
  · rw [if_neg hch]
    cases hs : sessions conv with
    | some sess =>
      dsimp only
      by_cases ht : contTrigger (pyStrip (pyLower q)) = true
      · right
        exact ⟨rfl, ht⟩
      · rw [if_neg ht]
        left
        exact laterTurnPart_no_run env q _ hist
    | none =>
      left
      exact laterTurnPart_no_run env q _ hist

/- ## C1 -/

theorem finalIntentOfTurn_eq (r : Except String String) (q : String) :
    finalIntentOfTurn r q =
      if acceptedIntents.contains (classifyIntentWithLlm r) = true
      then classifyIntentWithLlm r else classifyIntentRules q := rfl

theorem classifyIntentFromResponse_eq (resp : String) :
    classifyIntentFromResponse resp =
      if validIntents.contains (cleanedIntentOf resp) = true
      then cleanedIntentOf resp
      else
        match validIntents.find? (fun i => pyContains (cleanedIntentOf resp) i) with
        | some i => i
        | none => "other" := rfl

/-- C1 fails as stated: the code has no identifier fast path.  With an
    index holding the record for the identifier-pattern token "AAAAA1" and
    a semantic retriever whose nearest neighbours for the query are a
    different product, the product retrieval step
    (`get_context_from_vector_store` on the products collection) returns
    the semantic context, not the indexed record — it never performs a
    metadata-equality lookup. -/
theorem c1_counterexample :
    isIdentifierToken "AAAAA1" = true ∧
    pyContains "show me AAAAA1" "AAAAA1" = true ∧
    ("AAAAA1", "Product: Gold Ring\nSKU: AAAAA1") ∈
      [("AAAAA1", "Product: Gold Ring\nSKU: AAAAA1")] ∧
    getContextFromVectorStore
      ⟨true, true, 0, Except.ok "product_query",
       fun _ _ => Except.ok ["Product: Silver Necklace\nSKU: ZZZZZ9"],
       fun _ _ => Except.error "offline", fun _ _ _ => Except.error "offline",
       fun _ _ _ => Except.error "offline"⟩
      "show me AAAAA1" "products" = "Product: Silver Necklace\nSKU: ZZZZZ9" ∧
    ("Product: Silver Necklace\nSKU: ZZZZZ9" : String) ≠
      "Product: Gold Ring\nSKU: AAAAA1" := by
  exact ⟨by decide, by decide, by decide, rfl, by decide⟩

/-- C1 amended: a query containing an identifier-pattern token is processed
    like any other product query — the retrieval step is the semantic
    retrieval of `get_context_from_vector_store` over the products
    collection, fed to the QA chain; no exact metadata-equality lookup
    occurs, so the indexed record is returned only if the semantic
    retriever itself returns it. -/
theorem c1_amended (env : Env) (sessions : Sessions) (q tok : String)
    (hist : List HistMsg) (conv : String)
    (hid : isIdentifierToken tok = true) (hin : pyContains q tok = true)
    (hch : env.hasChains = true) (hs : sessions conv = none)
    (hhay : pyContains (pyStrip (pyLower q)) "how are you" = false)
    (hgr : findGreeting (pyStrip (pyLower q)) = none)
    (hintent : finalIntentOfTurn env.intentResponse q = "product_query") :
    processQuery env sessions q hist conv = (intentAnswer env q hist, sessions) ∧
    intentAnswer env q hist =
      finalizeResponse
        (if getContextFromVectorStore env q "products" = "" then noProductsMsg
         else
           match env.shopifyQA (getContextFromVectorStore env q "products") q with
           | Except.error _ => pipelineErrorMsg
           | Except.ok output => output.getD qaMissingOutputMsg) := by
  constructor
  · unfold processQuery
    rw [hch]
    simp only [Bool.true_eq_false, if_false, hs]
    unfold laterTurnPart
    rw [if_neg (by rw [hhay]; exact Bool.false_ne_true), hgr]
  · rw [intentAnswer_eq, hintent,
      if_neg (show ¬("product_query" : String) = "greeting" by decide),
      draftResponseFor_product]

/-- A concrete environment for C1's witness: the intent chain answers
    "product_query", the semantic retriever returns a necklace document. -/
def demoProductEnv : Env :=
  ⟨true, true, 0, Except.ok "product_query",
   fun _ _ => Except.ok ["Product: Silver Necklace\nSKU: ZZZZZ9"],
   fun _ _ => Except.ok (some "I found a lovely Silver Necklace (SKU: ZZZZZ9) for you."),
   fun _ _ _ => Except.error "offline", fun _ _ _ => Except.error "offline"⟩

/-- Witness for C1's amended theorem at a concrete identifier query. -/
theorem c1_amended_witness :
    isIdentifierToken "AAAAA1" = true ∧
    pyContains "show me AAAAA1" "AAAAA1" = true ∧
    processQuery demoProductEnv (fun _ => none) "show me AAAAA1" [] "c1" =
      (intentAnswer demoProductEnv "show me AAAAA1" [], fun _ => none) :=
  ⟨by decide, by decide,
   (c1_amended demoProductEnv (fun _ => none) "show me AAAAA1" "AAAAA1" [] "c1"
     (by decide) (by decide) rfl rfl (by decide) (by decide) (by decide)).1⟩

/- ## C2 -/

/-- C2 fails as stated: the model output "compliment" normalizes (also in
    the claim's sense) to the valid label "compliment", yet the turn's
    final classified intent is not "compliment" — `process_query` keeps
    only six of the eight labels and reclassifies the turn with the
    rule-based fallback (here: "general_faq"). -/
theorem c2_counterexample :
    specNormalize "compliment" = "compliment" ∧
    validIntents.contains "compliment" = true ∧
    finalIntentOfTurn (Except.ok "compliment") "vvv" = "general_faq" ∧
    ("general_faq" : String) ≠ "compliment" := by decide

/-- C2 amended: for the six labels `process_query` retains (product_query,
    return_policy, shipping_policy, privacy_policy, general_faq, greeting),
    a model output whose code normalization (trim, lowercase, remove
    periods) exactly matches the label yields that label as the turn's
    final intent; when there is no exact valid-label match but a valid
    label occurs as a substring, the first such label in the fixed order is
    chosen, and when it is one of the six it becomes the final intent; the
    exact matches "compliment" and "other" are superseded by the rule-based
    classification of the query. -/
theorem c2_amended :
    (∀ resp q lab, acceptedIntents.contains lab = true →
      cleanedIntentOf resp = lab →
      finalIntentOfTurn (Except.ok resp) q = lab) ∧
    (∀ resp q lab, validIntents.contains (cleanedIntentOf resp) = false →
      validIntents.find? (fun i => pyContains (cleanedIntentOf resp) i) = some lab →
      acceptedIntents.contains lab = true →
      finalIntentOfTurn (Except.ok resp) q = lab) ∧
    (∀ resp q, cleanedIntentOf resp = "compliment" ∨ cleanedIntentOf resp = "other" →
      finalIntentOfTurn (Except.ok resp) q = classifyIntentRules q) := by
  refine ⟨?_, ?_, ?_⟩
  · intro resp q lab hacc hcl
    have hcw : classifyIntentWithLlm (Except.ok resp) = lab := by
      show classifyIntentFromResponse resp = lab
      rw [classifyIntentFromResponse_eq, hcl,
        if_pos (accepted_sub_valid lab hacc)]
    rw [finalIntentOfTurn_eq, hcw, if_pos hacc]
  · intro resp q lab hval hfind hacc
    have hcw : classifyIntentWithLlm (Except.ok resp) = lab := by
      show classifyIntentFromResponse resp = lab
      rw [classifyIntentFromResponse_eq,
        if_neg (by rw [hval]; exact Bool.false_ne_true), hfind]
    rw [finalIntentOfTurn_eq, hcw, if_pos hacc]
  · intro resp q hcl
    rcases hcl with hcl | hcl
    · have hcw : classifyIntentWithLlm (Except.ok resp) = "compliment" := by
        show classifyIntentFromResponse resp = "compliment"
        rw [classifyIntentFromResponse_eq, hcl, if_pos (by decide)]
      rw [finalIntentOfTurn_eq, hcw, if_neg (by decide)]
    · have hcw : classifyIntentWithLlm (Except.ok resp) = "other" := by
        show classifyIntentFromResponse resp = "other"
        rw [classifyIntentFromResponse_eq, hcl, if_pos (by decide)]
      rw [finalIntentOfTurn_eq, hcw, if_neg (by decide)]

/-- Witness for C2's amended theorem: an exact match after normalization,
    a substring match, and a "compliment" exact match falling back to the
    rules. -/
theorem c2_amended_witness :
    acceptedIntents.contains "product_query" = true ∧
    cleanedIntentOf "  Product_Query. " = "product_query" ∧
    finalIntentOfTurn (Except.ok "  Product_Query. ") "anything" = "product_query" ∧
    finalIntentOfTurn (Except.ok "The intent is general_faq") "anything" = "general_faq" ∧
    finalIntentOfTurn (Except.ok "compliment") "great service" =
      classifyIntentRules "great service" :=
  ⟨by decide, by decide,
   c2_amended.1 "  Product_Query. " "anything" "product_query" (by decide) (by decide),
   c2_amended.2.1 "The intent is general_faq" "anything" "general_faq"
     (by decide) (by decide) (by decide),
   c2_amended.2.2 "compliment" "great service" (Or.inl (by decide))⟩

/- ## C7 -/

theorem constructState_eq_some (d : SlotDict) (st : ProductSearchState) :
    constructState d = some st ↔
      readTextField (d "category") = some st.category ∧
      readTextField (d "subcategory") = some st.subcategory ∧
      readTextField (d "stone") = some st.stone ∧
      readTextField (d "color") = some st.color ∧
      readTextField (d "finish") = some st.finish ∧
      readNumField (d "price_min") = some st.min_price ∧
      readNumField (d "price_max") = some st.max_price := by
  unfold constructState
  simp only [Option.bind_eq_bind, Option.bind_eq_some, Option.pure_def,
    Option.some.injEq]
  constructor
  · rintro ⟨c, h1, sc, h2, stn, h3, co, h4, fi, h5, mn, h6, mx, h7, heq⟩
    subst heq
    exact ⟨h1, h2, h3, h4, h5, h6, h7⟩
  · rintro ⟨h1, h2, h3, h4, h5, h6, h7⟩
    exact ⟨_, h1, _, h2, _, h3, _, h4, _, h5, _, h6, _, h7, rfl⟩

theorem readTextField_encode (o : Option String) :
    readTextField (some (o.map SlotValue.text)) = some o := by
  cases o <;> rfl

theorem readTextField_merge (uv : Option (Option SlotValue)) (sv v : Option String)
    (h : readTextField (uv.orElse (fun _ => some (sv.map SlotValue.text))) = some v) :
    readTextField (uv.orElse (fun _ => some (v.map SlotValue.text))) = some v := by
  cases uv with
  | some w => exact h
  | none =>
    have h' : readTextField (some (sv.map SlotValue.text)) = some v := h
    rw [readTextField_encode] at h'
    obtain rfl := Option.some_inj.mp h'
    show readTextField (some (sv.map SlotValue.text)) = some sv
    exact readTextField_encode sv

theorem textField_of_absent {uv : Option (Option SlotValue)} {sv v : Option String}
    (hu : uv = none)
    (h : readTextField (uv.orElse (fun _ => some (sv.map SlotValue.text))) = some v) :
    v = sv := by
  subst hu
  have h' : readTextField (some (sv.map SlotValue.text)) = some v := h
  rw [readTextField_encode] at h'
  exact (Option.some_inj.mp h').symm

theorem textField_of_clear {uv : Option (Option SlotValue)} {v : Option String}
    {f : Unit → Option (Option SlotValue)} (hu : uv = some none)
    (h : readTextField (uv.orElse f) = some v) : v = none := by
  subst hu
  have h' : readTextField (some none) = some v := h
  exact (Option.some_inj.mp h'.symm)

theorem textField_of_set {uv : Option (Option SlotValue)} {v : Option String}
    {w : String} {f : Unit → Option (Option SlotValue)}
    (hu : uv = some (some (SlotValue.text w)))
    (h : readTextField (uv.orElse f) = some v) : v = some w := by
  subst hu
  have h' : readTextField (some (some (SlotValue.text w))) = some v := h
  exact (Option.some_inj.mp h'.symm)

theorem numField_of_absent {uv : Option (Option SlotValue)} {v : Option Rat}
    (hu : uv = none)
    (h : readNumField (uv.orElse (fun _ => none)) = some v) : v = none := by
  subst hu
  have h' : readNumField none = some v := h
  exact (Option.some_inj.mp h'.symm)

theorem numField_of_set {uv : Option (Option SlotValue)} {v : Option Rat}
    {x : Rat} {f : Unit → Option (Option SlotValue)}
    (hu : uv = some (some (SlotValue.num x)))
    (h : readNumField (uv.orElse f) = some v) : v = some x := by
  subst hu
  have h' : readNumField (some (some (SlotValue.num x))) = some v := h
  exact (Option.some_inj.mp h'.symm)

/-- The state and update of C7's counterexample: a stored minimum price and
    an update touching only the color key. -/
def demoState : ProductSearchState :=
  ⟨some "ring", none, none, none, none, some 5000, none⟩

/-- An update dict carrying only `color`. -/
def demoUpdate : SlotDict :=
  fun k => if k = "color" then some (some (SlotValue.text "red")) else none

/-- C7 fails as stated: with `min_price = 5000` stored and an update that
    contains no price key at all (neither the field name nor the pydantic
    alias), `update_session` produces a state whose `min_price` is absent —
    the dump emits the key "min_price" but the constructor repopulates the
    field only from its alias "price_min", so a key absent from the update
    does not leave the field untouched. -/
theorem c7_counterexample :
    demoState.min_price = some 5000 ∧
    demoUpdate "min_price" = none ∧
    demoUpdate "price_min" = none ∧
    (updateSession demoState demoUpdate).map ProductSearchState.min_price =
      some none ∧
    (updateSession demoState demoUpdate).map ProductSearchState.color =
      some (some "red") ∧
    (updateSession demoState demoUpdate).map ProductSearchState.category =
      some (some "ring") := by decide

/-- C7 amended: `update_session` is idempotent, and it is a shallow merge
    for the five text slots (an absent key leaves the field untouched, a
    null clears it, a string value overwrites it); the two price fields,
    however, are repopulated solely from the alias keys "price_min" and
    "price_max" of the update — when the alias key is absent the price
    field is reset to absent regardless of its previous value. -/
theorem c7_amended :
    (∀ st u st1, updateSession st u = some st1 → updateSession st1 u = some st1) ∧
    (∀ st u st1, updateSession st u = some st1 →
      (u "category" = none → st1.category = st.category) ∧
      (u "category" = some none → st1.category = none) ∧
      (∀ v, u "category" = some (some (SlotValue.text v)) → st1.category = some v) ∧
      (u "subcategory" = none → st1.subcategory = st.subcategory) ∧
      (u "subcategory" = some none → st1.subcategory = none) ∧
      (∀ v, u "subcategory" = some (some (SlotValue.text v)) →
        st1.subcategory = some v) ∧
      (u "stone" = none → st1.stone = st.stone) ∧
      (u "stone" = some none → st1.stone = none) ∧
      (∀ v, u "stone" = some (some (SlotValue.text v)) → st1.stone = some v) ∧
      (u "color" = none → st1.color = st.color) ∧
      (u "color" = some none → st1.color = none) ∧
      (∀ v, u "color" = some (some (SlotValue.text v)) → st1.color = some v) ∧
      (u "finish" = none → st1.finish = st.finish) ∧
      (u "finish" = some none → st1.finish = none) ∧
      (∀ v, u "finish" = some (some (SlotValue.text v)) → st1.finish = some v) ∧
      (u "price_min" = none → st1.min_price = none) ∧
      (∀ x, u "price_min" = some (some (SlotValue.num x)) → st1.min_price = some x) ∧
      (u "price_max" = none → st1.max_price = none) ∧
      (∀ x, u "price_max" = some (some (SlotValue.num x)) → st1.max_price = some x)) := by
  constructor
  · intro st u st1 h
    unfold updateSession at h ⊢
    rw [constructState_eq_some] at h ⊢
    obtain ⟨h1, h2, h3, h4, h5, h6, h7⟩ := h
    exact ⟨readTextField_merge (u "category") st.category st1.category h1,
           readTextField_merge (u "subcategory") st.subcategory st1.subcategory h2,
           readTextField_merge (u "stone") st.stone st1.stone h3,
           readTextField_merge (u "color") st.color st1.color h4,
           readTextField_merge (u "finish") st.finish st1.finish h5,
           h6, h7⟩
  · intro st u st1 h
    unfold updateSession at h
    rw [constructState_eq_some] at h
    obtain ⟨h1, h2, h3, h4, h5, h6, h7⟩ := h
    exact ⟨fun hu => textField_of_absent hu h1,
           fun hu => textField_of_clear hu h1,
           fun v hu => textField_of_set hu h1,
           fun hu => textField_of_absent hu h2,
           fun hu => textField_of_clear hu h2,
           fun v hu => textField_of_set hu h2,
           fun hu => textField_of_absent hu h3,
           fun hu => textField_of_clear hu h3,
           fun v hu => textField_of_set hu h3,
           fun hu => textField_of_absent hu h4,
           fun hu => textField_of_clear hu h4,
           fun v hu => textField_of_set hu h4,
           fun hu => textField_of_absent hu h5,
           fun hu => textField_of_clear hu h5,
           fun v hu => textField_of_set hu h5,
           fun hu => numField_of_absent hu h6,
           fun x hu => numField_of_set hu h6,
           fun hu => numField_of_absent hu h7,
           fun x hu => numField_of_set hu h7⟩

/-- Witness for C7's amended theorem: the concrete one-key update applied
    twice gives the once-applied state, whose category survived untouched. -/
theorem c7_amended_witness :
    updateSession demoState demoUpdate =
      some ⟨some "ring", none, none, some "red", none, none, none⟩ ∧
    updateSession ⟨some "ring", none, none, some "red", none, none, none⟩
      demoUpdate =
      some ⟨some "ring", none, none, some "red", none, none, none⟩ ∧
    (⟨some "ring", none, none, some "red", none, none, none⟩ :
      ProductSearchState).category = demoState.category :=
  have h : updateSession demoState demoUpdate =
      some ⟨some "ring", none, none, some "red", none, none, none⟩ := by decide
  ⟨h, c7_amended.1 demoState demoUpdate _ h,
   (c7_amended.2 demoState demoUpdate _ h).1 rfl⟩
